import Mathlib

/-!
# RefugeeAssistanceFHE — shallow embedding and verification

Shallow embedding of `src/contracts/RefugeeAssistanceFHE.sol` (Solidity 0.8,
FHEVM).  Conventions of the embedding:

* `euint32` ciphertext handles are opaque to the contract; they are modelled
  as `Nat` (and `FHE.asEuint32 v` as the handle carrying `v`).
* Solidity `bytes`/`string` values are byte lists (`List Nat`).
* Solidity mappings are total functions with the zero value as default
  (`Nat → Nat`, or `Nat → DecryptedResult`); the three entity mappings that
  are only ever written at creation are modelled as `Nat → Option _`, where
  `none` is the never-written key (reads through them use `Option.getD` with
  the zero struct, matching mapping semantics).
* A reverting call (failed `require`, failed `abi.decode`, checked-arithmetic
  overflow) is `Except.error`; per EVM semantics a revert leaves the contract
  state untouched, which `execCall` makes explicit.
* The external FHE decryption capability is modelled by a fresh-request-id
  counter `nextRequestId` (the capability guarantees unique request ids) and
  by an environment carrying the `FHE.checkSignatures` oracle.  The callback
  payload (`cleartexts` bytes) is modelled by the shapes `abi.decode` is
  applied to: a triple of strings or a pair of `uint32` words.
* `block.timestamp` is a per-call argument `now`.
-/

namespace RefugeeAid

/-- Error taxonomy.  `UnknownRequestId` is `require(... != 0, "Invalid request")`,
`AlreadyRevealed` is `require(!isRevealed, "Already decrypted")`, `InvalidProof`
is a `FHE.checkSignatures` revert, `DecodeError` an `abi.decode` revert and
`Overflow` a checked-arithmetic revert.  `NotFound`, `Unauthorized` and
`IllegalTransition` appear in the spec's taxonomy and are included so that
claims about them can be stated. -/
inductive ContractError where
  | UnknownRequestId
  | AlreadyRevealed
  | InvalidProof
  | DecodeError
  | Overflow
  | NotFound
  | Unauthorized
  | IllegalTransition
  deriving Repr, DecidableEq

/-- The shapes of callback `cleartexts` payloads that `abi.decode` is applied
to in the contract: `(string, string, string)` for `performVerification`,
`(uint32, uint32)` for `decryptVerification`, or anything else. -/
inductive Cleartexts where
  | strings3 (identity needs resources : List Nat)
  | words2 (eligibility priority : Nat)
  | malformed
  deriving Repr, DecidableEq

/-- Models `abi.decode(cleartexts, (string, string, string))`: succeeds exactly on a
well-formed triple of strings. -/
def decodeStrings3 : Cleartexts → Option (List Nat × List Nat × List Nat)
  | .strings3 identity needs resources => some (identity, needs, resources)
  | _ => none

/-- Models `abi.decode(cleartexts, (uint32, uint32))`: succeeds exactly on a pair of
words that fit in 32 bits (ABI decoding checks the padding of a `uint32`). -/
def decodeWords2 : Cleartexts → Option (Nat × Nat)
  | .words2 e p => if e < 2 ^ 32 ∧ p < 2 ^ 32 then some (e, p) else none
  | _ => none

/-- Solidity `struct EncryptedRefugee`. -/
structure EncryptedRefugee where
  refugeeId : Nat
  encryptedIdentity : Nat
  encryptedLocation : Nat
  encryptedNeeds : Nat
  timestamp : Nat
  deriving Repr, DecidableEq

/-- Solidity `struct EncryptedAidPackage`. -/
structure EncryptedAidPackage where
  packageId : Nat
  encryptedResources : Nat
  encryptedQuantities : Nat
  timestamp : Nat
  deriving Repr, DecidableEq

/-- Solidity `struct EncryptedVerification`. -/
structure EncryptedVerification where
  verificationId : Nat
  encryptedEligibility : Nat
  encryptedPriority : Nat
  refugeeId : Nat
  packageId : Nat
  verifiedAt : Nat
  deriving Repr, DecidableEq

/-- Solidity `struct DecryptedResult`. -/
structure DecryptedResult where
  eligibility : Nat
  priority : Nat
  isRevealed : Bool
  deriving Repr, DecidableEq

/-- The zero value a Solidity mapping yields for a never-written
`EncryptedRefugee` key. -/
def zeroRefugee : EncryptedRefugee := ⟨0, 0, 0, 0, 0⟩

/-- The zero value for a never-written `EncryptedAidPackage` key. -/
def zeroPackage : EncryptedAidPackage := ⟨0, 0, 0, 0⟩

/-- The zero value for a never-written `EncryptedVerification` key. -/
def zeroVerification : EncryptedVerification := ⟨0, 0, 0, 0, 0, 0⟩

/-- The zero value for a never-written `DecryptedResult` key. -/
def zeroResult : DecryptedResult := ⟨0, 0, false⟩

/-- Contract storage, together with the fresh-request-id counter of the
external decryption capability (its ids are unique per request; we realise
the guarantee with a counter that starts at 1 and grows by 1 per
`FHE.requestDecryption`). -/
structure ContractState where
  refugeeCount : Nat
  packageCount : Nat
  verificationCount : Nat
  encryptedRefugees : Nat → Option EncryptedRefugee
  encryptedPackages : Nat → Option EncryptedAidPackage
  encryptedVerifications : Nat → Option EncryptedVerification
  decryptedResults : Nat → DecryptedResult
  requestToRefugeeId : Nat → Nat
  verificationRequestToId : Nat → Nat
  nextRequestId : Nat

/-- The deployed contract: all counters zero, all mappings empty, first
external request id 1. -/
def initState : ContractState where
  refugeeCount := 0
  packageCount := 0
  verificationCount := 0
  encryptedRefugees := fun _ => none
  encryptedPackages := fun _ => none
  encryptedVerifications := fun _ => none
  decryptedResults := fun _ => zeroResult
  requestToRefugeeId := fun _ => 0
  verificationRequestToId := fun _ => 0
  nextRequestId := 1

/-- Pointwise mapping update. -/
def mapUpdate {α : Type} (m : Nat → α) (k : Nat) (v : α) : Nat → α :=
  fun k' => if k' = k then v else m k'

/-- The kinds of mutating operation, for keying the external authorization
decision of the spec's Access Policy Gate. -/
inductive OpKind where
  | register
  | createPackage
  | verify
  | requestResult
  deriving Repr, DecidableEq

/-- The external world: the `FHE.checkSignatures` oracle (true = proof
accepted) and the authorization oracle of the spec's Access Policy Gate,
keyed on caller identity and operation kind. -/
structure Env where
  checkSig : Nat → Cleartexts → List Nat → Bool
  isAuthorized : Nat → OpKind → Bool

/-- Solidity `modifier onlyAgency()`: the body in the source is empty apart from the
comment "Add proper aid agency authentication in production" — it consults
nothing and always passes. -/
def onlyAgency (_env : Env) (_caller : Nat) (_op : OpKind) :
    Except ContractError Unit :=
  .ok ()

/-- The uint256 overflow bound; counter increments are checked in
Solidity 0.8 and revert at this bound. -/
def U256 : Nat := 2 ^ 256

/-- Source `registerEncryptedRefugee`. -/
def registerEncryptedRefugee (env : Env) (caller : Nat) (now : Nat)
    (encryptedIdentity encryptedLocation encryptedNeeds : Nat)
    (s : ContractState) : Except ContractError ContractState :=
  match onlyAgency env caller .register with
  | .error e => .error e
  | .ok _ =>
    if U256 ≤ s.refugeeCount + 1 then .error .Overflow
    else
      let newRefugeeId := s.refugeeCount + 1
      .ok { s with
        refugeeCount := newRefugeeId
        encryptedRefugees := mapUpdate s.encryptedRefugees newRefugeeId
          (some ⟨newRefugeeId, encryptedIdentity, encryptedLocation,
                 encryptedNeeds, now⟩) }

/-- Source `createAidPackage`. -/
def createAidPackage (env : Env) (caller : Nat) (now : Nat)
    (encryptedResources encryptedQuantities : Nat)
    (s : ContractState) : Except ContractError ContractState :=
  match onlyAgency env caller .createPackage with
  | .error e => .error e
  | .ok _ =>
    if U256 ≤ s.packageCount + 1 then .error .Overflow
    else
      let newPackageId := s.packageCount + 1
      .ok { s with
        packageCount := newPackageId
        encryptedPackages := mapUpdate s.encryptedPackages newPackageId
          (some ⟨newPackageId, encryptedResources, encryptedQuantities, now⟩) }

/-- Source `verifyEligibility`.  The source performs no existence check on either
id: it reads the (possibly zero) structs, bundles their handles and calls
`FHE.requestDecryption`, then registers `requestToRefugeeId[reqId] = refugeeId`.
Note that the `packageId` argument is used only to read the package's
handles; it is not recorded anywhere. -/
def verifyEligibility (env : Env) (caller : Nat) (refugeeId packageId : Nat)
    (s : ContractState) : Except ContractError ContractState :=
  match onlyAgency env caller .verify with
  | .error e => .error e
  | .ok _ =>
    let _refugee := (s.encryptedRefugees refugeeId).getD zeroRefugee
    let _aidPackage := (s.encryptedPackages packageId).getD zeroPackage
    let reqId := s.nextRequestId
    .ok { s with
      nextRequestId := s.nextRequestId + 1
      requestToRefugeeId := mapUpdate s.requestToRefugeeId reqId refugeeId }

/-- Source `calculateEligibility` (private pure helper): 50 points for identity
longer than 10 bytes, 50 for needs longer than 5 bytes, capped at 100.
No arithmetic here can overflow a `uint32`. -/
def calculateEligibility (identity needs : List Nat) : Nat :=
  let score := 0
  let score := if identity.length > 10 then score + 50 else score
  let score := if needs.length > 5 then score + 50 else score
  if score > 100 then 100 else score

/-- The loop of `calculatePriority`: count the positions `i` with
`i < needsBytes.length && i < resBytes.length` where the bytes agree. -/
def countMatches : List Nat → List Nat → Nat
  | a :: as, b :: bs => (if a = b then 1 else 0) + countMatches as bs
  | _, _ => 0

/-- Source `calculatePriority` (private pure helper).  `matches` is a checked
`uint32` (the `matches++` and `matches * 100` revert on overflow), and the
divisor is the explicit truncating cast `uint32(needsBytes.length ... : 1)`;
division by zero reverts.  `none` is a revert. -/
def calculatePriority (needs resources : List Nat) : Option Nat :=
  let m := countMatches needs resources
  if 2 ^ 32 ≤ m then none
  else if 2 ^ 32 ≤ m * 100 then none
  else
    let divisor := (if needs.length > 0 then needs.length else 1) % 2 ^ 32
    if divisor = 0 then none
    else some (m * 100 / divisor)

/-- Source `performVerification` (decryption-oracle callback, phase 1).  Looks the
request up in `requestToRefugeeId` (`require != 0`), checks signatures,
decodes three strings, assigns the next `verificationId`, computes the two
scores, stores the `EncryptedVerification` (with `packageId: 0`, the
source's placeholder) and a `DecryptedResult` with `isRevealed = false`.
The correlation entry is NOT removed. -/
def performVerification (env : Env) (now : Nat) (requestId : Nat)
    (cleartexts : Cleartexts) (proof : List Nat)
    (s : ContractState) : Except ContractError ContractState :=
  let refugeeId := s.requestToRefugeeId requestId
  if refugeeId = 0 then .error .UnknownRequestId
  else if env.checkSig requestId cleartexts proof = false then
    .error .InvalidProof
  else
    match decodeStrings3 cleartexts with
    | none => .error .DecodeError
    | some (identity, needs, resources) =>
      if U256 ≤ s.verificationCount + 1 then .error .Overflow
      else
        let newVerificationId := s.verificationCount + 1
        let eligibility := calculateEligibility identity needs
        match calculatePriority needs resources with
        | none => .error .Overflow
        | some priority =>
          .ok { s with
            verificationCount := newVerificationId
            encryptedVerifications := mapUpdate s.encryptedVerifications
              newVerificationId
              (some ⟨newVerificationId, eligibility, priority, refugeeId,
                     0, now⟩)
            decryptedResults := mapUpdate s.decryptedResults newVerificationId
              ⟨eligibility, priority, false⟩ }

/-- Source `requestVerificationResult`.  The only guard is
`require(!decryptedResults[verificationId].isRevealed)`; there is no check
that the verification exists.  Registers
`verificationRequestToId[reqId] = verificationId`. -/
def requestVerificationResult (env : Env) (caller : Nat)
    (verificationId : Nat) (s : ContractState) :
    Except ContractError ContractState :=
  match onlyAgency env caller .requestResult with
  | .error e => .error e
  | .ok _ =>
    let _verification := (s.encryptedVerifications verificationId).getD
      zeroVerification
    if (s.decryptedResults verificationId).isRevealed then
      .error .AlreadyRevealed
    else
      let reqId := s.nextRequestId
      .ok { s with
        nextRequestId := s.nextRequestId + 1
        verificationRequestToId := mapUpdate s.verificationRequestToId reqId
          verificationId }

/-- Source `decryptVerification` (decryption-oracle callback, phase 2).  Looks the
request up (`require != 0`), requires `!isRevealed`, checks signatures,
decodes two `uint32` words and writes them with `isRevealed = true`.
The correlation entry is NOT removed. -/
def decryptVerification (env : Env) (requestId : Nat)
    (cleartexts : Cleartexts) (proof : List Nat)
    (s : ContractState) : Except ContractError ContractState :=
  let verificationId := s.verificationRequestToId requestId
  if verificationId = 0 then .error .UnknownRequestId
  else if (s.decryptedResults verificationId).isRevealed then
    .error .AlreadyRevealed
  else if env.checkSig requestId cleartexts proof = false then
    .error .InvalidProof
  else
    match decodeWords2 cleartexts with
    | none => .error .DecodeError
    | some (eligibility, priority) =>
      .ok { s with
        decryptedResults := mapUpdate s.decryptedResults verificationId
          ⟨eligibility, priority, true⟩ }

/-- One external transaction against the contract. -/
inductive Call where
  | register (caller now encryptedIdentity encryptedLocation
      encryptedNeeds : Nat)
  | createPackage (caller now encryptedResources encryptedQuantities : Nat)
  | verify (caller refugeeId packageId : Nat)
  | perform (now requestId : Nat) (cleartexts : Cleartexts)
      (proof : List Nat)
  | requestResult (caller verificationId : Nat)
  | decryptV (requestId : Nat) (cleartexts : Cleartexts) (proof : List Nat)
  deriving Repr

/-- Dispatch one call. -/
def step (env : Env) (c : Call) (s : ContractState) :
    Except ContractError ContractState :=
  match c with
  | .register caller now i l n => registerEncryptedRefugee env caller now i l n s
  | .createPackage caller now r q => createAidPackage env caller now r q s
  | .verify caller rid pid => verifyEligibility env caller rid pid s
  | .perform now reqId ct pr => performVerification env now reqId ct pr s
  | .requestResult caller vid => requestVerificationResult env caller vid s
  | .decryptV reqId ct pr => decryptVerification env reqId ct pr s

/-- Execute one call with EVM revert semantics: a reverted transaction
leaves the state unchanged. -/
def execCall (env : Env) (s : ContractState) (c : Call) : ContractState :=
  match step env c s with
  | .ok s' => s'
  | .error _ => s

/-- Execute a sequence of transactions. -/
def execTrace (env : Env) (s : ContractState) : List Call → ContractState
  | [] => s
  | c :: cs => execTrace env (execCall env s c) cs

/-- An environment that accepts every proof and authorizes every caller. -/
def allowAll : Env := ⟨fun _ _ _ => true, fun _ _ => true⟩

/-- An environment whose authorization oracle denies every caller (proofs
still accepted), used against the Access Policy Gate claims. -/
def denyAllAuth : Env := ⟨fun _ _ _ => true, fun _ _ => false⟩

/-- An environment whose signature oracle rejects every proof. -/
def rejectAllSig : Env := ⟨fun _ _ _ => false, fun _ _ => true⟩

/-- Spec-side formula for the eligibility score, written from the spec's
words: `eligibility = min(100, 50·[len(identity) > 10] + 50·[len(needs) > 5])`. -/
def specEligibility (identity needs : List Nat) : Nat :=
  min 100 ((if identity.length > 10 then 50 else 0) +
           (if needs.length > 5 then 50 else 0))

/-- Spec-side match count, written from the spec's words: the number of index
positions `i < min(len(needs), len(resources))` where `needs[i] == resources[i]`. -/
def specMatchCount (needs resources : List Nat) : Nat :=
  ((List.range (min needs.length resources.length)).filter
    (fun i => needs.getD i 0 = resources.getD i 0)).length

/-- Spec-side formula for the priority score:
`priority = 100 · specMatchCount / max(1, len(needs))`. -/
def specPriority (needs resources : List Nat) : Nat :=
  100 * specMatchCount needs resources / max 1 needs.length

namespace Frontend

/-- The status enumeration of the frontend's `AidRecord`
(`src/frontend/web/src/App.tsx` line 14):
`"pending" | "approved" | "distributed" | "rejected"`. -/
inductive Status where
  | pending
  | approved
  | distributed
  | rejected
  deriving Repr, DecidableEq

/-- The frontend `AidRecord` as far as the status-transition handlers touch
it: the stored record (a JSON blob under key `aid_` + id in the key-value
contract) with its `status` field.  The remaining JSON fields
(`encryptedData`, `timestamp`, `owner`, `category`, `amount`, `location`,
`needs`) are carried through the handlers unchanged by the object spread
`{ ...recordData, status: ... }`, which `{ r with status := ... }`
mirrors. -/
structure AidRecord where
  id : Nat
  status : Status
  deriving Repr, DecidableEq

/-- `approveRecord` of `App.tsx` (lines 248-305): reads the record bytes
(`throw "Record not found"` when empty, modelled as `NotFound`) and then
unconditionally writes the record back with `status: "approved"` — there is
no check of the current status and no `IllegalTransition` error anywhere
in the repository. -/
def approveRecord (store : Nat → Option AidRecord) (recordId : Nat) :
    Except ContractError (Nat → Option AidRecord) :=
  match store recordId with
  | none => .error .NotFound
  | some recordData =>
    .ok (mapUpdate store recordId
      (some { recordData with status := .approved }))

/-- `distributeRecord` of `App.tsx` (lines 307-364): same shape as
`approveRecord`, unconditionally writing `status: "distributed"`. -/
def distributeRecord (store : Nat → Option AidRecord) (recordId : Nat) :
    Except ContractError (Nat → Option AidRecord) :=
  match store recordId with
  | none => .error .NotFound
  | some recordData =>
    .ok (mapUpdate store recordId
      (some { recordData with status := .distributed }))

/-- The only transition gating in the repository: the Approve button is
rendered exactly when `record.status === "pending"` (`App.tsx` line 574).
This is UI rendering, not part of the operation. -/
def approveButtonShown (r : AidRecord) : Bool :=
  r.status = .pending

/-- The Distribute button is rendered exactly when
`record.status === "approved"` (`App.tsx` line 582). -/
def distributeButtonShown (r : AidRecord) : Bool :=
  r.status = .approved

end Frontend

/-! ## Concrete material for counterexamples and witnesses -/

/-- Whether a call result is a success. -/
def isOkB {ε α : Type} : Except ε α → Bool
  | .ok _ => true
  | .error _ => false

/-- A well-formed phase-1 callback payload: identity of 11 bytes, needs of
6 bytes, resources of 6 bytes. -/
def demoCleartexts : Cleartexts :=
  .strings3 (List.replicate 11 0) (List.replicate 6 0) (List.replicate 6 0)

/-- Register a refugee, request its verification (request id 1) and deliver
the phase-1 callback, creating verification 1. -/
def replayTrace : List Call :=
  [ .register 1 0 10 20 30,
    .verify 1 1 1,
    .perform 0 1 demoCleartexts [] ]

/-- Trace: `replayTrace`, then a reveal request for the nonexistent verification 2
(request id 2), its phase-2 callback (revealing verification 2, which was
never created), and a second eligibility request (request id 3). -/
def clobberSetupTrace : List Call :=
  replayTrace ++
  [ .requestResult 1 2,
    .decryptV 2 (.words2 7 9) [],
    .verify 1 1 1 ]

/-- Trace: `clobberSetupTrace`, then the phase-1 callback for request 3, which
creates verification 2 and overwrites its already-revealed result. -/
def clobberTrace : List Call :=
  clobberSetupTrace ++ [ .perform 0 3 demoCleartexts [] ]

/-- Register, request verification, deliver the callback (verification 1),
request the reveal of verification 1 (request id 2) and deliver it:
verification 1 exists and is revealed. -/
def revealTrace : List Call :=
  replayTrace ++
  [ .requestResult 1 1,
    .decryptV 2 (.words2 100 100) [] ]

/-- A state with request id 1 registered in both correlation tables
(pointing at refugee 1 and verification 5), for exercising the callbacks. -/
def bothRegisteredState : ContractState :=
  { initState with
    requestToRefugeeId := mapUpdate initState.requestToRefugeeId 1 1
    verificationRequestToId :=
      mapUpdate initState.verificationRequestToId 1 5 }

/-- A one-record store for the frontend status handlers: record 1,
`pending`. -/
def pendingStore : Nat → Option Frontend.AidRecord :=
  mapUpdate (fun _ => none) 1 (some ⟨1, .pending⟩)

/-- A one-record store holding a rejected record: record 1, `rejected`. -/
def rejectedStore : Nat → Option Frontend.AidRecord :=
  mapUpdate (fun _ => none) 1 (some ⟨1, .rejected⟩)

/-- Register refugee 1 and issue its eligibility request (request id 1):
the state right before the phase-1 callback. -/
def preCallbackState : ContractState :=
  execTrace allowAll initState
    [ .register 1 0 10 20 30, .verify 1 1 1 ]

/-- The state after `revealTrace`: verification 1 exists and its result is
revealed. -/
def revealedState : ContractState :=
  execTrace allowAll initState revealTrace

/-- The record IDs assigned by the successful `registerEncryptedRefugee`
calls of a trace, in order. -/
def createdIds (env : Env) : ContractState → List Call → List Nat
  | _, [] => []
  | s, c :: cs =>
    let rest := createdIds env (execCall env s c) cs
    match c with
    | .register _ _ _ _ _ =>
      if isOkB (step env c s) then (s.refugeeCount + 1) :: rest else rest
    | _ => rest

/-! ## Basic lemmas about the embedding -/

theorem mapUpdate_self {α : Type} (m : Nat → α) (k : Nat) (v : α) :
    mapUpdate m k v k = v := by
  simp [mapUpdate]

theorem mapUpdate_ne {α : Type} (m : Nat → α) {k k' : Nat} (v : α)
    (h : k' ≠ k) : mapUpdate m k v k' = m k' := by
  simp [mapUpdate, h]

/-- Success shape of `registerEncryptedRefugee`. -/
theorem registerEncryptedRefugee_ok_elim {env : Env}
    {caller now a b c : Nat} {s s' : ContractState}
    (h : registerEncryptedRefugee env caller now a b c s = .ok s') :
    s.refugeeCount + 1 < U256 ∧
    s' = { s with
      refugeeCount := s.refugeeCount + 1
      encryptedRefugees := mapUpdate s.encryptedRefugees (s.refugeeCount + 1)
        (some ⟨s.refugeeCount + 1, a, b, c, now⟩) } := by
  simp only [registerEncryptedRefugee, onlyAgency] at h
  split at h
  · cases h
  · exact ⟨Nat.lt_of_not_le (by assumption), (Except.ok.inj h).symm⟩

/-- Success shape of `createAidPackage`. -/
theorem createAidPackage_ok_elim {env : Env}
    {caller now a b : Nat} {s s' : ContractState}
    (h : createAidPackage env caller now a b s = .ok s') :
    s.packageCount + 1 < U256 ∧
    s' = { s with
      packageCount := s.packageCount + 1
      encryptedPackages := mapUpdate s.encryptedPackages (s.packageCount + 1)
        (some ⟨s.packageCount + 1, a, b, now⟩) } := by
  simp only [createAidPackage, onlyAgency] at h
  split at h
  · cases h
  · exact ⟨Nat.lt_of_not_le (by assumption), (Except.ok.inj h).symm⟩

/-- Source `verifyEligibility` always succeeds and only registers the correlation
entry (and burns a request id). -/
theorem verifyEligibility_eq (env : Env) (caller refugeeId packageId : Nat)
    (s : ContractState) :
    verifyEligibility env caller refugeeId packageId s =
      .ok { s with
        nextRequestId := s.nextRequestId + 1
        requestToRefugeeId := mapUpdate s.requestToRefugeeId s.nextRequestId
          refugeeId } := rfl

/-- Success shape of `performVerification`. -/
theorem performVerification_ok_elim {env : Env} {now requestId : Nat}
    {ct : Cleartexts} {proof : List Nat} {s s' : ContractState}
    (h : performVerification env now requestId ct proof s = .ok s') :
    s.requestToRefugeeId requestId ≠ 0 ∧
    env.checkSig requestId ct proof = true ∧
    s.verificationCount + 1 < U256 ∧
    ∃ identity needs resources priority,
      decodeStrings3 ct = some (identity, needs, resources) ∧
      calculatePriority needs resources = some priority ∧
      s' = { s with
        verificationCount := s.verificationCount + 1
        encryptedVerifications := mapUpdate s.encryptedVerifications
          (s.verificationCount + 1)
          (some ⟨s.verificationCount + 1, calculateEligibility identity needs,
                 priority, s.requestToRefugeeId requestId, 0, now⟩)
        decryptedResults := mapUpdate s.decryptedResults
          (s.verificationCount + 1)
          ⟨calculateEligibility identity needs, priority, false⟩ } := by
  simp only [performVerification] at h
  split at h
  · cases h
  · split at h
    · cases h
    · split at h
      · cases h
      · split at h
        · cases h
        · split at h
          · cases h
          · rename_i h1 h2 _x1 identity needs resources heq1 h3 _x2
              priority heq2
            exact ⟨h1, by simpa using h2, Nat.lt_of_not_le h3,
              identity, needs, resources, priority, heq1, heq2,
              (Except.ok.inj h).symm⟩

/-- Success shape of `requestVerificationResult`. -/
theorem requestVerificationResult_ok_elim {env : Env}
    {caller verificationId : Nat} {s s' : ContractState}
    (h : requestVerificationResult env caller verificationId s = .ok s') :
    (s.decryptedResults verificationId).isRevealed = false ∧
    s' = { s with
      nextRequestId := s.nextRequestId + 1
      verificationRequestToId := mapUpdate s.verificationRequestToId
        s.nextRequestId verificationId } := by
  simp only [requestVerificationResult, onlyAgency] at h
  split at h
  · cases h
  · exact ⟨Bool.eq_false_iff.mpr (by assumption), (Except.ok.inj h).symm⟩

/-- Success shape of `decryptVerification`. -/
theorem decryptVerification_ok_elim {env : Env} {requestId : Nat}
    {ct : Cleartexts} {proof : List Nat} {s s' : ContractState}
    (h : decryptVerification env requestId ct proof s = .ok s') :
    s.verificationRequestToId requestId ≠ 0 ∧
    (s.decryptedResults (s.verificationRequestToId requestId)).isRevealed
      = false ∧
    env.checkSig requestId ct proof = true ∧
    ∃ e p, decodeWords2 ct = some (e, p) ∧
      s' = { s with
        decryptedResults := mapUpdate s.decryptedResults
          (s.verificationRequestToId requestId) ⟨e, p, true⟩ } := by
  simp only [decryptVerification] at h
  split at h
  · cases h
  · split at h
    · cases h
    · split at h
      · cases h
      · split at h
        · cases h
        · rename_i h1 h2 h3 _x e p heq
          exact ⟨h1, by simpa using h2, by simpa using h3, e, p, heq,
            (Except.ok.inj h).symm⟩

end RefugeeAid

namespace RefugeeAid

/-- A reverted call leaves the state unchanged. -/
theorem execCall_error {env : Env} {c : Call} {s : ContractState}
    {e : ContractError} (h : step env c s = .error e) :
    execCall env s c = s := by
  simp [execCall, h]

/-- A successful call steps to the new state. -/
theorem execCall_ok {env : Env} {c : Call} {s s' : ContractState}
    (h : step env c s = .ok s') : execCall env s c = s' := by
  simp [execCall, h]

/-- With a registered request id and a failing signature check,
`performVerification` reverts with `InvalidProof`. -/
theorem performVerification_invalidProof {env : Env}
    {now requestId : Nat} {ct : Cleartexts} {proof : List Nat}
    {s : ContractState} (h1 : s.requestToRefugeeId requestId ≠ 0)
    (h2 : env.checkSig requestId ct proof = false) :
    performVerification env now requestId ct proof s =
      .error .InvalidProof := by
  simp [performVerification, h1, h2]

/-- With a registered request id, an unrevealed target and a failing
signature check, `decryptVerification` reverts with `InvalidProof`. -/
theorem decryptVerification_invalidProof {env : Env}
    {requestId : Nat} {ct : Cleartexts} {proof : List Nat}
    {s : ContractState} (h1 : s.verificationRequestToId requestId ≠ 0)
    (h2 : (s.decryptedResults
      (s.verificationRequestToId requestId)).isRevealed = false)
    (h3 : env.checkSig requestId ct proof = false) :
    decryptVerification env requestId ct proof s = .error .InvalidProof := by
  simp [decryptVerification, h1, h2, h3]

/-- A reveal request for an already-revealed id reverts with
`AlreadyRevealed`. -/
theorem requestVerificationResult_alreadyRevealed {env : Env}
    {caller verificationId : Nat} {s : ContractState}
    (h : (s.decryptedResults verificationId).isRevealed = true) :
    requestVerificationResult env caller verificationId s =
      .error .AlreadyRevealed := by
  simp [requestVerificationResult, onlyAgency, h]

/-- A phase-2 callback whose target is already revealed reverts with
`AlreadyRevealed` (not `UnknownRequestId`). -/
theorem decryptVerification_alreadyRevealed {env : Env}
    {requestId : Nat} {ct : Cleartexts} {proof : List Nat}
    {s : ContractState} (h1 : s.verificationRequestToId requestId ≠ 0)
    (h2 : (s.decryptedResults
      (s.verificationRequestToId requestId)).isRevealed = true) :
    decryptVerification env requestId ct proof s =
      .error .AlreadyRevealed := by
  simp [decryptVerification, h1, h2]

/-- When every guard of `performVerification` passes, the call succeeds. -/
theorem performVerification_ok_intro {env : Env} {now requestId : Nat}
    {ct : Cleartexts} {proof : List Nat} {s : ContractState}
    {identity needs resources : List Nat} {priority : Nat}
    (h1 : s.requestToRefugeeId requestId ≠ 0)
    (h2 : env.checkSig requestId ct proof = true)
    (hd : decodeStrings3 ct = some (identity, needs, resources))
    (hp : calculatePriority needs resources = some priority)
    (hc : s.verificationCount + 1 < U256) :
    isOkB (performVerification env now requestId ct proof s) = true := by
  simp [performVerification, h1, h2, hd, hp, Nat.not_le.mpr hc, isOkB]

end RefugeeAid

namespace RefugeeAid

/-- No single call moves an already-registered correlation entry below the
fresh-id counter: the entry keeps its target and the counter stays above
it (registrations only ever write at the fresh id). -/
theorem execCall_correlation_stable (env : Env) (c : Call)
    (s : ContractState) (r : Nat) (hr : r < s.nextRequestId) :
    r < (execCall env s c).nextRequestId ∧
    (execCall env s c).requestToRefugeeId r = s.requestToRefugeeId r ∧
    (execCall env s c).verificationRequestToId r
      = s.verificationRequestToId r := by
  cases hstep : step env c s with
  | error e => rw [execCall_error hstep]; exact ⟨hr, rfl, rfl⟩
  | ok s' =>
    rw [execCall_ok hstep]
    cases c with
    | register caller now a b cc =>
      simp only [step] at hstep
      obtain ⟨-, rfl⟩ := registerEncryptedRefugee_ok_elim hstep
      exact ⟨hr, rfl, rfl⟩
    | createPackage caller now a b =>
      simp only [step] at hstep
      obtain ⟨-, rfl⟩ := createAidPackage_ok_elim hstep
      exact ⟨hr, rfl, rfl⟩
    | verify caller rid pid =>
      have h := hstep
      rw [step, verifyEligibility_eq] at h
      obtain rfl := Except.ok.inj h
      exact ⟨Nat.lt_succ_of_lt hr, mapUpdate_ne _ _ (Nat.ne_of_lt hr), rfl⟩
    | perform now reqId ct pr =>
      simp only [step] at hstep
      obtain ⟨-, -, -, i, n, rr, p, -, -, rfl⟩ :=
        performVerification_ok_elim hstep
      exact ⟨hr, rfl, rfl⟩
    | requestResult caller vid =>
      simp only [step] at hstep
      obtain ⟨-, rfl⟩ := requestVerificationResult_ok_elim hstep
      exact ⟨Nat.lt_succ_of_lt hr, rfl, mapUpdate_ne _ _ (Nat.ne_of_lt hr)⟩
    | decryptV reqId ct pr =>
      simp only [step] at hstep
      obtain ⟨-, -, -, e, p, -, rfl⟩ := decryptVerification_ok_elim hstep
      exact ⟨hr, rfl, rfl⟩

/-- Correlation entries below the fresh-id counter are stable across whole
traces: a callback always resolves to the target registered for its
request id. -/
theorem execTrace_correlation_stable (env : Env) (cs : List Call) :
    ∀ (s : ContractState) (r : Nat), r < s.nextRequestId →
    r < (execTrace env s cs).nextRequestId ∧
    (execTrace env s cs).requestToRefugeeId r = s.requestToRefugeeId r ∧
    (execTrace env s cs).verificationRequestToId r
      = s.verificationRequestToId r := by
  induction cs with
  | nil => exact fun s r hr => ⟨hr, rfl, rfl⟩
  | cons c cs ih =>
    intro s r hr
    obtain ⟨h1, h2, h3⟩ := execCall_correlation_stable env c s r hr
    obtain ⟨g1, g2, g3⟩ := ih (execCall env s c) r h1
    exact ⟨g1, g2.trans h2, g3.trans h3⟩

/-- No single call touches a revealed result that belongs to an existing
verification (`vid ≤ verificationCount`), and the verification count never
drops below it. -/
theorem execCall_revealed_frozen (env : Env) (c : Call) (s : ContractState)
    (vid : Nat) (hle : vid ≤ s.verificationCount)
    (hrev : (s.decryptedResults vid).isRevealed = true) :
    vid ≤ (execCall env s c).verificationCount ∧
    (execCall env s c).decryptedResults vid = s.decryptedResults vid := by
  cases hstep : step env c s with
  | error e => rw [execCall_error hstep]; exact ⟨hle, rfl⟩
  | ok s' =>
    rw [execCall_ok hstep]
    cases c with
    | register caller now a b cc =>
      simp only [step] at hstep
      obtain ⟨-, rfl⟩ := registerEncryptedRefugee_ok_elim hstep
      exact ⟨hle, rfl⟩
    | createPackage caller now a b =>
      simp only [step] at hstep
      obtain ⟨-, rfl⟩ := createAidPackage_ok_elim hstep
      exact ⟨hle, rfl⟩
    | verify caller rid pid =>
      have h := hstep
      rw [step, verifyEligibility_eq] at h
      obtain rfl := Except.ok.inj h
      exact ⟨hle, rfl⟩
    | perform now reqId ct pr =>
      simp only [step] at hstep
      obtain ⟨-, -, -, i, n, rr, p, -, -, rfl⟩ :=
        performVerification_ok_elim hstep
      refine ⟨Nat.le_succ_of_le hle, mapUpdate_ne _ _ ?_⟩
      omega
    | requestResult caller vid' =>
      simp only [step] at hstep
      obtain ⟨-, rfl⟩ := requestVerificationResult_ok_elim hstep
      exact ⟨hle, rfl⟩
    | decryptV reqId ct pr =>
      simp only [step] at hstep
      obtain ⟨-, hunrev, -, e, p, -, rfl⟩ := decryptVerification_ok_elim hstep
      refine ⟨hle, mapUpdate_ne _ _ ?_⟩
      intro hvid
      rw [hvid] at hrev
      rw [hrev] at hunrev
      cases hunrev

/-- Revealed results of existing verifications are frozen across whole
traces. -/
theorem execTrace_revealed_frozen (env : Env) (cs : List Call) :
    ∀ (s : ContractState) (vid : Nat), vid ≤ s.verificationCount →
    (s.decryptedResults vid).isRevealed = true →
    vid ≤ (execTrace env s cs).verificationCount ∧
    (execTrace env s cs).decryptedResults vid = s.decryptedResults vid := by
  induction cs with
  | nil => exact fun s vid hle hrev => ⟨hle, rfl⟩
  | cons c cs ih =>
    intro s vid hle hrev
    obtain ⟨h1, h2⟩ := execCall_revealed_frozen env c s vid hle hrev
    obtain ⟨g1, g2⟩ := ih (execCall env s c) vid h1 (h2 ▸ hrev)
    exact ⟨g1, g2.trans h2⟩

/-- One call preserves the refugee-store shape invariant: a record is
present exactly for the ids `1 .. refugeeCount`. -/
theorem execCall_refugee_inv (env : Env) (c : Call) (s : ContractState)
    (hinv : ∀ i, (s.encryptedRefugees i).isSome
      ↔ (1 ≤ i ∧ i ≤ s.refugeeCount)) :
    ∀ i, ((execCall env s c).encryptedRefugees i).isSome
      ↔ (1 ≤ i ∧ i ≤ (execCall env s c).refugeeCount) := by
  cases hstep : step env c s with
  | error e => rw [execCall_error hstep]; exact hinv
  | ok s' =>
    rw [execCall_ok hstep]
    cases c with
    | register caller now a b cc =>
      simp only [step] at hstep
      obtain ⟨-, rfl⟩ := registerEncryptedRefugee_ok_elim hstep
      intro i
      dsimp only
      by_cases hi : i = s.refugeeCount + 1
      · subst hi
        rw [mapUpdate_self]
        simp
      · rw [mapUpdate_ne _ _ hi, hinv i]
        omega
    | createPackage caller now a b =>
      simp only [step] at hstep
      obtain ⟨-, rfl⟩ := createAidPackage_ok_elim hstep
      exact hinv
    | verify caller rid pid =>
      have h := hstep
      rw [step, verifyEligibility_eq] at h
      obtain rfl := Except.ok.inj h
      exact hinv
    | perform now reqId ct pr =>
      simp only [step] at hstep
      obtain ⟨-, -, -, i, n, rr, p, -, -, rfl⟩ :=
        performVerification_ok_elim hstep
      exact hinv
    | requestResult caller vid =>
      simp only [step] at hstep
      obtain ⟨-, rfl⟩ := requestVerificationResult_ok_elim hstep
      exact hinv
    | decryptV reqId ct pr =>
      simp only [step] at hstep
      obtain ⟨-, -, -, e, p, -, rfl⟩ := decryptVerification_ok_elim hstep
      exact hinv

/-- The refugee-store shape invariant holds along whole traces. -/
theorem execTrace_refugee_inv (env : Env) (cs : List Call) :
    ∀ (s : ContractState),
    (∀ i, (s.encryptedRefugees i).isSome ↔ (1 ≤ i ∧ i ≤ s.refugeeCount)) →
    ∀ i, ((execTrace env s cs).encryptedRefugees i).isSome
      ↔ (1 ≤ i ∧ i ≤ (execTrace env s cs).refugeeCount) := by
  induction cs with
  | nil => exact fun s hinv => hinv
  | cons c cs ih =>
    intro s hinv
    exact ih (execCall env s c) (execCall_refugee_inv env c s hinv)

/-- The assigned ids of a trace form the contiguous range from
`refugeeCount + 1` at the start to the final `refugeeCount`. -/
theorem createdIds_eq_range' (env : Env) : ∀ (cs : List Call)
    (s : ContractState),
    s.refugeeCount ≤ (execTrace env s cs).refugeeCount ∧
    createdIds env s cs =
      List.range' (s.refugeeCount + 1)
        ((execTrace env s cs).refugeeCount - s.refugeeCount) := by
  intro cs
  induction cs with
  | nil => intro s; exact ⟨Nat.le_refl _, by simp [createdIds, execTrace]⟩
  | cons c cs ih =>
    intro s
    show s.refugeeCount ≤ (execTrace env (execCall env s c) cs).refugeeCount
      ∧ createdIds env s (c :: cs) =
        List.range' (s.refugeeCount + 1)
          ((execTrace env (execCall env s c) cs).refugeeCount
            - s.refugeeCount)
    cases hstep : step env c s with
    | error e =>
      have hexec : execCall env s c = s := execCall_error hstep
      rw [hexec]
      obtain ⟨ih1, ih2⟩ := ih s
      refine ⟨ih1, ?_⟩
      cases c <;>
        (simp only [step] at hstep
         simp [createdIds, hexec, hstep, isOkB, step, ih2])
    | ok s' =>
      have hexec : execCall env s c = s' := execCall_ok hstep
      rw [hexec]
      obtain ⟨ih1, ih2⟩ := ih s'
      cases c with
      | register caller now a b cc =>
        simp only [step] at hstep
        obtain ⟨-, hs'⟩ := registerEncryptedRefugee_ok_elim hstep
        have hcount : s'.refugeeCount = s.refugeeCount + 1 := by rw [hs']
        rw [hcount] at ih1 ih2
        refine ⟨by omega, ?_⟩
        have hsub : (execTrace env s' cs).refugeeCount - s.refugeeCount
            = ((execTrace env s' cs).refugeeCount - (s.refugeeCount + 1)) + 1
            := by omega
        rw [hsub, List.range'_succ]
        simp [createdIds, hexec, hstep, isOkB, step, ih2]
      | createPackage caller now a b =>
        simp only [step] at hstep
        obtain ⟨-, hs'⟩ := createAidPackage_ok_elim hstep
        have hcount : s'.refugeeCount = s.refugeeCount := by rw [hs']
        rw [hcount] at ih1 ih2
        exact ⟨ih1, by simp [createdIds, hexec, hstep, isOkB, ih2]⟩
      | verify caller rid pid =>
        simp only [step, verifyEligibility_eq] at hstep
        have hs' := Except.ok.inj hstep
        have hcount : s'.refugeeCount = s.refugeeCount := by rw [← hs']
        rw [hcount] at ih1 ih2
        exact ⟨ih1, by simp [createdIds, hexec, isOkB, ih2]⟩
      | perform now reqId ct pr =>
        simp only [step] at hstep
        obtain ⟨-, -, -, i, n, rr, p, -, -, hs'⟩ :=
          performVerification_ok_elim hstep
        have hcount : s'.refugeeCount = s.refugeeCount := by rw [hs']
        rw [hcount] at ih1 ih2
        exact ⟨ih1, by simp [createdIds, hexec, isOkB, ih2]⟩
      | requestResult caller vid =>
        simp only [step] at hstep
        obtain ⟨-, hs'⟩ := requestVerificationResult_ok_elim hstep
        have hcount : s'.refugeeCount = s.refugeeCount := by rw [hs']
        rw [hcount] at ih1 ih2
        exact ⟨ih1, by simp [createdIds, hexec, isOkB, ih2]⟩
      | decryptV reqId ct pr =>
        simp only [step] at hstep
        obtain ⟨-, -, -, e, p, -, hs'⟩ := decryptVerification_ok_elim hstep
        have hcount : s'.refugeeCount = s.refugeeCount := by rw [hs']
        rw [hcount] at ih1 ih2
        exact ⟨ih1, by simp [createdIds, hexec, isOkB, ih2]⟩

end RefugeeAid

namespace RefugeeAid

theorem countMatches_nil_right (l : List Nat) : countMatches l [] = 0 := by
  cases l <;> rfl

/-- The loop counter is bounded by the length of `needs`. -/
theorem countMatches_le_left : ∀ (n r : List Nat),
    countMatches n r ≤ n.length := by
  intro n
  induction n with
  | nil => intro r; cases r <;> simp [countMatches]
  | cons a as ih =>
    intro r
    cases r with
    | nil => simp [countMatches]
    | cons b bs =>
      simp only [countMatches, List.length_cons]
      have := ih bs
      split <;> omega

theorem specMatchCount_cons (a b : Nat) (as bs : List Nat) :
    specMatchCount (a :: as) (b :: bs)
      = (if a = b then 1 else 0) + specMatchCount as bs := by
  unfold specMatchCount
  rw [← List.countP_eq_length_filter, ← List.countP_eq_length_filter,
    List.length_cons, List.length_cons, Nat.succ_min_succ,
    List.range_succ_eq_map, List.countP_cons, List.countP_map]
  have hps : ((fun i => decide ((a :: as).getD i 0 = (b :: bs).getD i 0))
      ∘ Nat.succ) = fun i => decide (as.getD i 0 = bs.getD i 0) := by
    funext i
    simp
  rw [hps]
  simp only [List.getD_cons_zero, decide_eq_true_eq]
  rw [Nat.add_comm]

/-- The loop of the source computes exactly the spec's match count. -/
theorem countMatches_eq_spec : ∀ (n r : List Nat),
    countMatches n r = specMatchCount n r := by
  intro n
  induction n with
  | nil =>
    intro r
    cases r <;> simp [countMatches, specMatchCount]
  | cons a as ih =>
    intro r
    cases r with
    | nil => simp [countMatches_nil_right, specMatchCount]
    | cons b bs =>
      rw [specMatchCount_cons]
      show (if a = b then 1 else 0) + countMatches as bs = _
      rw [ih bs]

theorem specMatchCount_le_left (n r : List Nat) :
    specMatchCount n r ≤ n.length :=
  countMatches_eq_spec n r ▸ countMatches_le_left n r

/-- Source `calculateEligibility` computes the spec's formula, for all inputs. -/
theorem calculateEligibility_eq_spec (identity needs : List Nat) :
    calculateEligibility identity needs = specEligibility identity needs := by
  by_cases h1 : identity.length > 10 <;> by_cases h2 : needs.length > 5 <;>
    simp [calculateEligibility, specEligibility, h1, h2]

/-- Source `calculatePriority` computes the spec's formula whenever the byte
length of `needs` fits a `uint32` and the scaled match count does not
overflow a `uint32`. -/
theorem calculatePriority_eq_spec (needs resources : List Nat)
    (hlen : needs.length < 2 ^ 32)
    (hmul : 100 * specMatchCount needs resources < 2 ^ 32) :
    calculatePriority needs resources =
      some (specPriority needs resources) := by
  unfold calculatePriority specPriority
  rw [countMatches_eq_spec]
  have hml : specMatchCount needs resources ≤ needs.length :=
    specMatchCount_le_left needs resources
  rw [if_neg (by omega), if_neg (by omega)]
  by_cases h0 : needs.length > 0
  · rw [if_pos h0, Nat.mod_eq_of_lt hlen,
      if_neg (by omega : ¬ needs.length = 0), Nat.mul_comm,
      Nat.max_eq_right h0]
  · have hz : needs.length = 0 := by omega
    rw [if_neg h0]
    norm_num [hz, Nat.mul_comm]

end RefugeeAid

namespace RefugeeAid

theorem countMatches_replicate_pow32 :
    countMatches (List.replicate (2 ^ 32) 0) [0] = 1 := by
  have h : (2 ^ 32 : Nat) = (2 ^ 32 - 1) + 1 := by norm_num
  rw [h, List.replicate_succ]
  show (if (0:Nat) = 0 then 1 else 0)
      + countMatches (List.replicate (2 ^ 32 - 1) 0) [] = 1
  rw [countMatches_nil_right, if_pos rfl]

/-- At `needs` of byte length exactly `2 ^ 32` the truncating `uint32` cast
of the length makes the divisor zero and the division reverts. -/
theorem calculatePriority_pow32_reverts :
    calculatePriority (List.replicate (2 ^ 32) 0) [0] = none := by
  unfold calculatePriority
  rw [countMatches_replicate_pow32]
  rw [if_neg (by norm_num), if_neg (by norm_num)]
  rw [List.length_replicate]
  rw [if_pos (by norm_num : (0:Nat) < 2 ^ 32), Nat.mod_self, if_pos rfl]

end RefugeeAid

namespace RefugeeAid

/-! ## Claims -/

/-- Claim C3 (amended). —  The claim states that `verifyEligibility` fails
`NotFound` when the record or package is absent.  In the source there is no
existence check at all: for every `refugeeId`/`packageId`, absent or not,
the call succeeds, submits a decryption request over the (zero) handles and
registers the correlation entry mapping the fresh request id to
`refugeeId`. -/
theorem claim_C3 (env : Env) (caller refugeeId packageId : Nat)
    (s : ContractState)
    (_hrec : s.encryptedRefugees refugeeId = none)
    (_hpkg : s.encryptedPackages packageId = none) :
    verifyEligibility env caller refugeeId packageId s ≠ .error .NotFound ∧
    ∃ s', verifyEligibility env caller refugeeId packageId s = .ok s' ∧
      s'.requestToRefugeeId s.nextRequestId = refugeeId ∧
      s'.nextRequestId = s.nextRequestId + 1 := by
  constructor
  · rw [verifyEligibility_eq]
    intro h
    cases h
  · exact ⟨_, verifyEligibility_eq env caller refugeeId packageId s,
      mapUpdate_self _ _ _, rfl⟩

/-- Claim C3, counterexample to the claim as stated. —  In the initial state
neither record 5 nor package 7 exists, yet `verifyEligibility 5 7` does not
fail `NotFound`: it succeeds, submits a decryption request (the fresh-id
counter advances) and registers the correlation entry `1 ↦ 5`. -/
theorem claim_C3_counterexample :
    initState.encryptedRefugees 5 = none ∧
    initState.encryptedPackages 7 = none ∧
    isOkB (verifyEligibility allowAll 1 5 7 initState) = true ∧
    (execCall allowAll initState (.verify 1 5 7)).requestToRefugeeId 1 = 5 ∧
    (execCall allowAll initState (.verify 1 5 7)).nextRequestId = 2 := by
  decide

/-- Claim C3, witness. — -/
theorem claim_C3_witness :
    initState.encryptedRefugees 5 = none ∧
    initState.encryptedPackages 7 = none ∧
    (verifyEligibility allowAll 1 5 7 initState ≠ .error .NotFound ∧
     ∃ s', verifyEligibility allowAll 1 5 7 initState = .ok s' ∧
       s'.requestToRefugeeId initState.nextRequestId = 5 ∧
       s'.nextRequestId = initState.nextRequestId + 1) :=
  ⟨rfl, rfl, claim_C3 allowAll 1 5 7 initState rfl rfl⟩

/-- Claim C4 (amended). —  The claim states every mutating operation consults
the external authorization decision and fails `Unauthorized` on denial.
In the source `onlyAgency` is an empty placeholder: no operation consults
the authorization oracle (the outcome is identical under the all-denying
oracle) and no call ever returns `Unauthorized`.  (The spec's
`approveRecord`/`distributeRecord` do not exist in the contract at all.) -/
theorem claim_C4 (env : Env) (c : Call) (s : ContractState) :
    step env c s = step { env with isAuthorized := fun _ _ => false } c s ∧
    step env c s ≠ .error .Unauthorized := by
  constructor
  · cases c <;> rfl
  · intro hcontra
    cases c
    all_goals
      simp only [step, registerEncryptedRefugee, createAidPackage,
        verifyEligibility, performVerification, requestVerificationResult,
        decryptVerification, onlyAgency] at hcontra
    all_goals repeat' split at hcontra
    all_goals simp at hcontra

/-- Claim C4, counterexample to the claim as stated. —  Under the all-denying
authorization oracle, `registerEncryptedRefugee` still succeeds and mutates
state instead of returning `Unauthorized`. -/
theorem claim_C4_counterexample :
    denyAllAuth.isAuthorized 1 OpKind.register = false ∧
    isOkB (registerEncryptedRefugee denyAllAuth 1 0 10 20 30 initState)
      = true ∧
    (execCall denyAllAuth initState (.register 1 0 10 20 30)).refugeeCount
      = 1 := by
  decide

/-- Claim C6 (amended). —  The eligibility formula of the spec is reproduced
exactly for all inputs.  The priority formula is reproduced exactly
whenever `len(needs) < 2^32` and `100·matchCount < 2^32`; beyond those
bounds the `uint32` cast of `len(needs)` truncates and the checked `uint32`
arithmetic reverts (see the counterexample).  The three test vectors hold. -/
theorem claim_C6 :
    (∀ identity needs : List Nat,
      calculateEligibility identity needs = specEligibility identity needs) ∧
    (∀ needs resources : List Nat, needs.length < 2 ^ 32 →
      100 * specMatchCount needs resources < 2 ^ 32 →
      calculatePriority needs resources
        = some (specPriority needs resources)) ∧
    calculateEligibility (List.replicate 11 0) (List.replicate 6 0) = 100 ∧
    calculateEligibility (List.replicate 5 0) (List.replicate 6 0) = 50 ∧
    calculatePriority [97, 98, 99, 100, 101] [97, 98, 120, 100, 101]
      = some 80 :=
  ⟨calculateEligibility_eq_spec, calculatePriority_eq_spec,
    by decide, by decide, by decide⟩

/-- Claim C6, counterexample to the claim as stated. —  At `needs` of byte
length `2 ^ 32` (and `resources = [0]`), the claimed identity between
`calculatePriority` and the spec formula fails: the `uint32` cast of the
length is zero, so the division reverts instead of producing the spec's
value. -/
theorem claim_C6_counterexample :
    calculatePriority (List.replicate (2 ^ 32) 0) [0]
      ≠ some (specPriority (List.replicate (2 ^ 32) 0) [0]) := by
  rw [calculatePriority_pow32_reverts]
  intro h
  cases h

/-- Claim C6, witness. — -/
theorem claim_C6_witness :
    ([97, 98, 99, 100, 101] : List Nat).length < 2 ^ 32 ∧
    100 * specMatchCount [97, 98, 99, 100, 101] [97, 98, 120, 100, 101]
      < 2 ^ 32 ∧
    calculatePriority [97, 98, 99, 100, 101] [97, 98, 120, 100, 101]
      = some (specPriority [97, 98, 99, 100, 101] [97, 98, 120, 100, 101]) :=
  ⟨by decide, by decide,
    claim_C6.2.1 [97, 98, 99, 100, 101] [97, 98, 120, 100, 101]
      (by decide) (by decide)⟩

/-- Claim C9. —  Every successful `performVerification` callback stores the new
`EncryptedVerification` with `packageId = 0` (the source's placeholder),
whatever package was referenced at submission — the correlation table only
records the refugee id, so the record-to-package association is dropped. -/
theorem claim_C9 (env : Env) (now requestId : Nat) (ct : Cleartexts)
    (proof : List Nat) (s s' : ContractState)
    (h : performVerification env now requestId ct proof s = .ok s') :
    s'.verificationCount = s.verificationCount + 1 ∧
    ∃ v, s'.encryptedVerifications s'.verificationCount = some v ∧
      v.packageId = 0 ∧ v.refugeeId = s.requestToRefugeeId requestId := by
  obtain ⟨-, -, -, i, n, rr, p, -, -, rfl⟩ := performVerification_ok_elim h
  exact ⟨rfl, _, mapUpdate_self _ _ _, rfl, rfl⟩

/-- Claim C9, witness. —  Concretely: the eligibility request of
`preCallbackState` was issued by `verifyEligibility 1 1` (package 1), and
the verification created by its callback still has `packageId = 0`. -/
theorem claim_C9_witness :
    (execCall allowAll preCallbackState
      (.perform 0 1 demoCleartexts [])).verificationCount
      = preCallbackState.verificationCount + 1 ∧
    ∃ v, (execCall allowAll preCallbackState
        (.perform 0 1 demoCleartexts [])).encryptedVerifications
        (execCall allowAll preCallbackState
          (.perform 0 1 demoCleartexts [])).verificationCount = some v ∧
      v.packageId = 0 ∧
      v.refugeeId = preCallbackState.requestToRefugeeId 1 :=
  claim_C9 allowAll 0 1 demoCleartexts [] preCallbackState
    (execCall allowAll preCallbackState (.perform 0 1 demoCleartexts []))
    rfl

end RefugeeAid

namespace RefugeeAid

/-- Claim C7. —  When the signature check fails on a callback whose request id
is registered (and, for phase 2, whose target is not yet revealed), the
callback reverts with `InvalidProof` and the state is unchanged: no
Verification is created, no DecryptedResult is written. -/
theorem claim_C7 (env : Env) (now requestId : Nat) (ct : Cleartexts)
    (proof : List Nat) (s : ContractState)
    (hsig : env.checkSig requestId ct proof = false) :
    (s.requestToRefugeeId requestId ≠ 0 →
      performVerification env now requestId ct proof s
        = .error .InvalidProof ∧
      execCall env s (.perform now requestId ct proof) = s) ∧
    (s.verificationRequestToId requestId ≠ 0 →
      (s.decryptedResults
        (s.verificationRequestToId requestId)).isRevealed = false →
      decryptVerification env requestId ct proof s = .error .InvalidProof ∧
      execCall env s (.decryptV requestId ct proof) = s) := by
  constructor
  · intro h1
    have he := @performVerification_invalidProof env now requestId ct
      proof s h1 hsig
    have hstep : step env (.perform now requestId ct proof) s
        = .error .InvalidProof := he
    exact ⟨he, execCall_error hstep⟩
  · intro h1 h2
    have he := decryptVerification_invalidProof h1 h2 hsig
    have hstep : step env (.decryptV requestId ct proof) s
        = .error .InvalidProof := he
    exact ⟨he, execCall_error hstep⟩

/-- Claim C7, witness. —  In a state with request id 1 registered in both
correlation tables, a rejecting signature oracle makes both callbacks fail
`InvalidProof` with no state change. -/
theorem claim_C7_witness :
    performVerification rejectAllSig 0 1 (.words2 5 5) [] bothRegisteredState
      = .error .InvalidProof ∧
    execCall rejectAllSig bothRegisteredState (.perform 0 1 (.words2 5 5) [])
      = bothRegisteredState ∧
    decryptVerification rejectAllSig 1 (.words2 5 5) [] bothRegisteredState
      = .error .InvalidProof ∧
    execCall rejectAllSig bothRegisteredState (.decryptV 1 (.words2 5 5) [])
      = bothRegisteredState := by
  obtain ⟨h1, h2⟩ :=
    claim_C7 rejectAllSig 0 1 (.words2 5 5) [] bothRegisteredState rfl
  obtain ⟨ha, hb⟩ := h1 (by decide)
  obtain ⟨hc, hd⟩ := h2 (by decide) (by decide)
  exact ⟨ha, hb, hc, hd⟩

/-- Claim C5 (amended) — the repository's status-transition code is the
frontend's `approveRecord`/`distributeRecord` (`App.tsx` lines 248-364),
and it enforces no transition relation: for every stored record, whatever
its current status (including `rejected`), `approveRecord` succeeds and
sets `approved`, `distributeRecord` succeeds and sets `distributed`
(other fields unchanged); each fails only `NotFound` when the record is
absent, and nothing ever fails `IllegalTransition`.  The spec's
Pending-only/Approved-only gating exists solely as UI button rendering:
the Approve button is shown exactly on `pending` records and the
Distribute button exactly on `approved` ones. -/
theorem claim_C5 (store : Nat → Option Frontend.AidRecord) (id : Nat)
    (r : Frontend.AidRecord) (hr : store id = some r) :
    (∃ store', Frontend.approveRecord store id = .ok store' ∧
      store' id = some { r with status := .approved }) ∧
    (∃ store', Frontend.distributeRecord store id = .ok store' ∧
      store' id = some { r with status := .distributed }) ∧
    Frontend.approveRecord store id ≠ .error .IllegalTransition ∧
    Frontend.distributeRecord store id ≠ .error .IllegalTransition ∧
    (∀ id', store id' = none →
      Frontend.approveRecord store id' = .error .NotFound ∧
      Frontend.distributeRecord store id' = .error .NotFound) ∧
    (∀ rec, Frontend.approveButtonShown rec = true
      ↔ rec.status = .pending) ∧
    (∀ rec, Frontend.distributeButtonShown rec = true
      ↔ rec.status = .approved) := by
  refine ⟨?_, ?_, ?_, ?_, ?_, ?_, ?_⟩
  · exact ⟨mapUpdate store id (some { r with status := .approved }),
      by simp only [Frontend.approveRecord, hr], mapUpdate_self _ _ _⟩
  · exact ⟨mapUpdate store id (some { r with status := .distributed }),
      by simp only [Frontend.distributeRecord, hr], mapUpdate_self _ _ _⟩
  · simp only [Frontend.approveRecord, hr]
    intro h
    cases h
  · simp only [Frontend.distributeRecord, hr]
    intro h
    cases h
  · intro id' habs
    constructor
    · simp only [Frontend.approveRecord, habs]
    · simp only [Frontend.distributeRecord, habs]
  · intro rec
    simp [Frontend.approveButtonShown]
  · intro rec
    simp [Frontend.distributeButtonShown]

/-- Claim C5, counterexample to the claim as stated — on a record whose
stored status is `rejected` (a terminal state per the claim),
`approveRecord` does not fail `IllegalTransition`: it succeeds and
overwrites the status to `approved`. -/
theorem claim_C5_counterexample :
    rejectedStore 1 = some ⟨1, .rejected⟩ ∧
    isOkB (Frontend.approveRecord rejectedStore 1) = true ∧
    Frontend.approveRecord rejectedStore 1 ≠ .error .IllegalTransition ∧
    (∃ store', Frontend.approveRecord rejectedStore 1 = .ok store' ∧
      store' 1 = some ⟨1, .approved⟩) := by
  refine ⟨rfl, rfl, ?_, _, rfl, rfl⟩
  intro h
  cases h

/-- Claim C5, witness. -/
theorem claim_C5_witness :
    (∃ store', Frontend.approveRecord pendingStore 1 = .ok store' ∧
      store' 1 = some { (⟨1, .pending⟩ : Frontend.AidRecord) with
        status := .approved }) ∧
    (∃ store', Frontend.distributeRecord pendingStore 1 = .ok store' ∧
      store' 1 = some { (⟨1, .pending⟩ : Frontend.AidRecord) with
        status := .distributed }) ∧
    Frontend.approveRecord pendingStore 1 ≠ .error .IllegalTransition ∧
    Frontend.distributeRecord pendingStore 1
      ≠ .error .IllegalTransition ∧
    (∀ id', pendingStore id' = none →
      Frontend.approveRecord pendingStore id' = .error .NotFound ∧
      Frontend.distributeRecord pendingStore id' = .error .NotFound) ∧
    (∀ rec, Frontend.approveButtonShown rec = true
      ↔ rec.status = .pending) ∧
    (∀ rec, Frontend.distributeButtonShown rec = true
      ↔ rec.status = .approved) :=
  claim_C5 pendingStore 1 ⟨1, .pending⟩ rfl

end RefugeeAid

namespace RefugeeAid

/-- Claim C1 (amended). —  The claim states that a correlation entry is
consumed on its first successful callback, so a replay fails
`UnknownRequestId`.  In the source neither callback deletes its entry:
after a successful `performVerification` the entry is still present and a
replay of the same delivery is accepted again (creating another
Verification); a replayed `decryptVerification` fails `AlreadyRevealed`,
not `UnknownRequestId`.  What does hold is target fidelity: an entry below
the fresh-id counter never changes, so every callback resolves exactly to
the target registered at submission. -/
theorem claim_C1 (env : Env) :
    (∀ now now' requestId ct proof s s₁,
      performVerification env now requestId ct proof s = .ok s₁ →
      s₁.requestToRefugeeId requestId = s.requestToRefugeeId requestId ∧
      (s₁.verificationCount + 1 < U256 →
        isOkB (performVerification env now' requestId ct proof s₁)
          = true)) ∧
    (∀ requestId ct proof ct' proof' s s₁,
      decryptVerification env requestId ct proof s = .ok s₁ →
      decryptVerification env requestId ct' proof' s₁
        = .error .AlreadyRevealed) ∧
    (∀ (cs : List Call) s requestId, requestId < s.nextRequestId →
      (execTrace env s cs).requestToRefugeeId requestId
        = s.requestToRefugeeId requestId ∧
      (execTrace env s cs).verificationRequestToId requestId
        = s.verificationRequestToId requestId) := by
  refine ⟨?_, ?_, ?_⟩
  · intro now now' requestId ct proof s s₁ h
    obtain ⟨h1, h2, h3, i, n, rr, p, hd, hp, rfl⟩ :=
      performVerification_ok_elim h
    refine ⟨rfl, fun hc => ?_⟩
    exact performVerification_ok_intro h1 h2 hd hp hc
  · intro requestId ct proof ct' proof' s s₁ h
    obtain ⟨h1, h2, h3, e, p, hd, rfl⟩ := decryptVerification_ok_elim h
    refine decryptVerification_alreadyRevealed ?_ ?_
    · exact h1
    · show (mapUpdate s.decryptedResults
        (s.verificationRequestToId requestId) ⟨e, p, true⟩
        (s.verificationRequestToId requestId)).isRevealed = true
      rw [mapUpdate_self]
  · intro cs s requestId hr
    exact (execTrace_correlation_stable env cs s requestId hr).2

/-- Claim C1, counterexample to the claim as stated. —  After `replayTrace`
(whose last call is the successful phase-1 callback for request id 1), a
second delivery of the very same callback does not fail
`UnknownRequestId`: it succeeds and creates a second Verification. -/
theorem claim_C1_counterexample :
    isOkB (step allowAll (.perform 0 1 demoCleartexts [])
      (execTrace allowAll initState replayTrace)) = true ∧
    (execTrace allowAll initState
      (replayTrace ++ [.perform 0 1 demoCleartexts []])).verificationCount
      = 2 := by
  decide

/-- Claim C1, witness. — -/
theorem claim_C1_witness :
    ContractState.requestToRefugeeId
      (execCall allowAll preCallbackState (.perform 0 1 demoCleartexts [])) 1
      = preCallbackState.requestToRefugeeId 1 ∧
    isOkB (performVerification allowAll 0 1 demoCleartexts []
      (execCall allowAll preCallbackState (.perform 0 1 demoCleartexts [])))
      = true := by
  have h := (claim_C1 allowAll).1 0 0 1 demoCleartexts [] preCallbackState
    (execCall allowAll preCallbackState (.perform 0 1 demoCleartexts []))
    rfl
  exact ⟨h.1, h.2 (by decide)⟩

/-- Claim C2 (amended). —  Every `DecryptedResult` starts unrevealed; a reveal
request for an already-revealed id fails `AlreadyRevealed` with no state
change; and for every id that belongs to an existing Verification
(`vid ≤ verificationCount`), once revealed the stored triple never changes
again.  The restriction to existing Verifications is forced by the
counterexample: an id above `verificationCount` can be revealed through
`requestVerificationResult` (claim C10) and is later overwritten by the
`performVerification` callback that creates that id. -/
theorem claim_C2 (env : Env) :
    (∀ vid, (initState.decryptedResults vid).isRevealed = false) ∧
    (∀ (cs : List Call) s vid, vid ≤ s.verificationCount →
      (s.decryptedResults vid).isRevealed = true →
      (execTrace env s cs).decryptedResults vid = s.decryptedResults vid ∧
      vid ≤ (execTrace env s cs).verificationCount) ∧
    (∀ caller vid s, (s.decryptedResults vid).isRevealed = true →
      requestVerificationResult env caller vid s
        = .error .AlreadyRevealed ∧
      execCall env s (.requestResult caller vid) = s) := by
  refine ⟨fun vid => rfl, ?_, ?_⟩
  · intro cs s vid hle hrev
    obtain ⟨h1, h2⟩ := execTrace_revealed_frozen env cs s vid hle hrev
    exact ⟨h2, h1⟩
  · intro caller vid s hrev
    have he := @requestVerificationResult_alreadyRevealed env caller vid
      s hrev
    have hstep : step env (.requestResult caller vid) s
        = .error .AlreadyRevealed := he
    exact ⟨he, execCall_error hstep⟩

/-- Claim C2, counterexample to the claim as stated. —  After
`clobberSetupTrace` the result of id 2 is revealed as `(7, 9, true)`;
one more `performVerification` callback (`clobberTrace`) creates
verification 2 and overwrites it to `(100, 100, false)` — `isRevealed`
drops back to `false` and the stored values change after reveal. -/
theorem claim_C2_counterexample :
    (execTrace allowAll initState clobberSetupTrace).decryptedResults 2
      = ⟨7, 9, true⟩ ∧
    (execTrace allowAll initState clobberTrace).decryptedResults 2
      = ⟨100, 100, false⟩ := by
  decide

/-- Claim C2, witness. — -/
theorem claim_C2_witness :
    1 ≤ revealedState.verificationCount ∧
    (revealedState.decryptedResults 1).isRevealed = true ∧
    ((execTrace allowAll revealedState
        [.requestResult 1 1]).decryptedResults 1
      = revealedState.decryptedResults 1 ∧
     1 ≤ (execTrace allowAll revealedState
        [.requestResult 1 1]).verificationCount) ∧
    (requestVerificationResult allowAll 1 1 revealedState
      = .error .AlreadyRevealed ∧
     execCall allowAll revealedState (.requestResult 1 1)
      = revealedState) := by
  refine ⟨by decide, by decide, ?_, ?_⟩
  · exact (claim_C2 allowAll).2.1 [.requestResult 1 1] revealedState 1
      (by decide) (by decide)
  · exact (claim_C2 allowAll).2.2 1 1 revealedState (by decide)

/-- Claim C8. —  Over any sequence of calls from the deployed contract, the ids
assigned by `registerEncryptedRefugee` are pairwise distinct (never
reused), their number equals the final `refugeeCount`, and a record is
stored exactly for the ids `1 .. refugeeCount`. -/
theorem claim_C8 (env : Env) (cs : List Call) :
    (createdIds env initState cs).Nodup ∧
    (createdIds env initState cs).length
      = (execTrace env initState cs).refugeeCount ∧
    (∀ i, ((execTrace env initState cs).encryptedRefugees i).isSome
      ↔ (1 ≤ i ∧ i ≤ (execTrace env initState cs).refugeeCount)) := by
  obtain ⟨h1, h2⟩ := createdIds_eq_range' env cs initState
  refine ⟨?_, ?_, ?_⟩
  · rw [h2]
    exact List.nodup_range' _ _
  · rw [h2, List.length_range']
    show (execTrace env initState cs).refugeeCount - 0 = _
    omega
  · refine execTrace_refugee_inv env cs initState ?_
    intro i
    show (none : Option EncryptedRefugee).isSome = true ↔ 1 ≤ i ∧ i ≤ 0
    simp
    omega

/-- Claim C10 (amended). —  For every nonzero `verificationId` with no stored
Verification and a not-yet-revealed result slot, `requestVerificationResult`
nevertheless succeeds and registers a reveal request, and the subsequent
valid `decryptVerification` callback marks the slot revealed — for an id
that still has no Verification.  (At `verificationId = 0` the claim as
stated fails: the request also succeeds, but the callback is rejected,
because a registered target of 0 is indistinguishable from an absent
entry; see the counterexample.) -/
theorem claim_C10 (env : Env) (caller vid e p : Nat) (proof : List Nat)
    (s : ContractState)
    (hvid : vid ≠ 0)
    (hnover : s.encryptedVerifications vid = none)
    (hunrev : (s.decryptedResults vid).isRevealed = false)
    (he : e < 2 ^ 32) (hp : p < 2 ^ 32)
    (hsig : env.checkSig s.nextRequestId (.words2 e p) proof = true) :
    ∃ s₁ s₂, requestVerificationResult env caller vid s = .ok s₁ ∧
      decryptVerification env s.nextRequestId (.words2 e p) proof s₁
        = .ok s₂ ∧
      s₂.decryptedResults vid = ⟨e, p, true⟩ ∧
      s₂.encryptedVerifications vid = none := by
  have h₁ : requestVerificationResult env caller vid s = .ok
      { s with
        nextRequestId := s.nextRequestId + 1
        verificationRequestToId := mapUpdate s.verificationRequestToId
          s.nextRequestId vid } := by
    simp only [requestVerificationResult, onlyAgency]
    rw [if_neg (by simp [hunrev])]
  refine ⟨_, { s with
      nextRequestId := s.nextRequestId + 1
      verificationRequestToId := mapUpdate s.verificationRequestToId
        s.nextRequestId vid
      decryptedResults := mapUpdate s.decryptedResults vid
        ⟨e, p, true⟩ }, h₁, ?_, ?_, ?_⟩
  · simp only [decryptVerification]
    rw [show mapUpdate s.verificationRequestToId s.nextRequestId vid
        s.nextRequestId = vid from mapUpdate_self _ _ _]
    rw [if_neg hvid, if_neg (by simp [hunrev]), if_neg (by simp [hsig])]
    rw [show decodeWords2 (.words2 e p) = some (e, p) from by
      simp only [decodeWords2]
      rw [if_pos ⟨he, hp⟩]]
  · show mapUpdate s.decryptedResults vid
        (⟨e, p, true⟩ : DecryptedResult) vid = ⟨e, p, true⟩
    exact mapUpdate_self _ _ _
  · exact hnover

/-- Claim C10, counterexample to the claim as stated. —  For
`verificationId = 0` (which never has a Verification), the reveal request
still succeeds and registers request id 1 with target 0 — but the
subsequent valid callback fails `UnknownRequestId` instead of revealing,
because target 0 reads as an absent correlation entry. -/
theorem claim_C10_counterexample :
    initState.encryptedVerifications 0 = none ∧
    isOkB (requestVerificationResult allowAll 1 0 initState) = true ∧
    decryptVerification allowAll 1 (.words2 5 5) []
      (execCall allowAll initState (.requestResult 1 0))
      = .error .UnknownRequestId ∧
    ((execCall allowAll (execCall allowAll initState (.requestResult 1 0))
      (.decryptV 1 (.words2 5 5) [])).decryptedResults 0).isRevealed
      = false := by
  refine ⟨rfl, rfl, rfl, by decide⟩

/-- Claim C10, witness. — -/
theorem claim_C10_witness :
    ∃ s₁ s₂, requestVerificationResult allowAll 1 2 initState = .ok s₁ ∧
      decryptVerification allowAll initState.nextRequestId (.words2 7 9) []
        s₁ = .ok s₂ ∧
      s₂.decryptedResults 2 = ⟨7, 9, true⟩ ∧
      s₂.encryptedVerifications 2 = none :=
  claim_C10 allowAll 1 2 7 9 [] initState (by decide) rfl rfl (by decide)
    (by decide) rfl

end RefugeeAid
